import Mathlib

/-!
Shallow embedding of `src/weather.py` (weather MCP server).

The module exposes two tool operations, `get_alerts` and `get_forecast`,
built on a single fetch helper `get_weather_data`.  The embedding models:

* decoded JSON payloads by the inductive type `Json` (an object is the
  association list of the decoded dict, keys unique);
* the outcome of one HTTP round trip by `HttpResult` (timeout, transport
  error, or a response with a status code and the JSON-decode result of
  its body);
* the network by an environment `env : String → HttpResult` assigning an
  outcome to every URL;
* Python faults (uncaught `KeyError` / `TypeError` / `AttributeError`)
  by `Option`: a function that can fault returns `none` on the faulting
  path;
* each tool returns its result string (or `none` for a fault) paired with
  the list of URLs it handed to the fetcher, in order, so that claims
  about which fetches are issued can be stated.

`latitude` and `longitude` enter the program only through their rendered
text inside the points URL, so the embedding takes that rendered text as
the parameter.
-/

/-- Decoded JSON value, as produced by `response.json()`.  Numbers are
modelled as integers (the integral case, the only one the claims touch);
an object is the association list of the decoded Python dict, whose keys
are unique after JSON decoding. -/
inductive Json where
  | null : Json
  | bool : Bool → Json
  | num : Int → Json
  | str : String → Json
  | arr : List Json → Json
  | obj : List (String × Json) → Json

/-- Python truthiness of a decoded JSON value (`if not data: ...`). -/
def Json.isTruthy : Json → Bool
  | .null => false
  | .bool b => b
  | .num n => n != 0
  | .str s => s != ""
  | .arr xs => !xs.isEmpty
  | .obj kvs => !kvs.isEmpty

/-- Python subscript `j[k]` with a string key: `some v` when `j` is a
dict containing `k`; `none` models the uncaught fault (`KeyError` when
the key is missing, `TypeError` when `j` is not a dict). -/
def Json.getKey : Json → String → Option Json
  | .obj kvs, k => List.lookup k kvs
  | _, _ => none

/-- Total variant of `Json.getKey` used only to STATE expected outputs:
missing keys give `Json.null`. -/
def getKeyD (j : Json) (k : String) : Json :=
  (j.getKey k).getD .null

/-- Python `d.get(k)`: `some (some v)` / `some none` when `d` is a dict
with / without the key; `none` models the `AttributeError` fault when `d`
is not a dict. -/
def pyDictGet : Json → String → Option (Option Json)
  | .obj kvs, k => some (List.lookup k kvs)
  | _, _ => none

/-- Whether the character list `needle` is an initial segment of `hay`. -/
def beginsWith : List Char → List Char → Bool
  | [], _ => true
  | _ :: _, [] => false
  | a :: as, b :: bs => a == b && beginsWith as bs

/-- Whether `needle` occurs contiguously inside `hay` (Python substring
membership for strings). -/
def containsSeg (needle : List Char) : List Char → Bool
  | [] => beginsWith needle []
  | c :: cs => beginsWith needle (c :: cs) || containsSeg needle cs

/-- Python membership test `k in j` for a string `k`: key membership for
a dict, element equality for a list, substring test for a string; `none`
models the `TypeError` fault on other values. -/
def pyIn (k : String) : Json → Option Bool
  | .obj kvs => some (List.lookup k kvs).isSome
  | .arr xs => some (xs.any (fun x => match x with | .str s => s == k | _ => false))
  | .str s => some (containsSeg k.toList s.toList)
  | _ => none

/-- Python iteration `for x in j`: elements of a list, keys of a dict,
one-character strings of a string; `none` models the `TypeError` fault on
other values. -/
def Json.pyIter : Json → Option (List Json)
  | .arr xs => some xs
  | .obj kvs => some (kvs.map (fun kv => Json.str kv.1))
  | .str s => some (s.toList.map (fun c => Json.str (String.singleton c)))
  | _ => none

/-- Python slice-then-iterate `for x in j[:7]`: first seven elements of a
list, characters of the first seven characters of a string; `none` models
the `TypeError` fault on other values (a dict cannot be sliced). -/
def pySliceIter7 : Json → Option (List Json)
  | .arr xs => some (xs.take 7)
  | .str s => some ((s.toList.take 7).map (fun c => Json.str (String.singleton c)))
  | _ => none

/-- One escaped character of a Python string repr quoted by `q`. -/
def escapeChar (q : Char) (c : Char) : String :=
  if c == Char.ofNat 92 then "\\\\"
  else if c == q then "\\" ++ String.singleton q
  else if c == Char.ofNat 10 then "\\n"
  else if c == Char.ofNat 13 then "\\r"
  else if c == Char.ofNat 9 then "\\t"
  else String.singleton c

/-- CPython `repr` of a text string, for the printable common case:
single quotes, switching to double quotes when the text holds a single
quote and no double quote. -/
def pyStrRepr (s : String) : String :=
  let hasSingle := s.toList.any (fun c => c == Char.ofNat 39)
  let hasDouble := s.toList.any (fun c => c == Char.ofNat 34)
  let q := if hasSingle && !hasDouble then Char.ofNat 34 else Char.ofNat 39
  String.singleton q ++ String.join (s.toList.map (escapeChar q)) ++ String.singleton q

mutual

/-- CPython `repr` of a decoded JSON value. -/
def pyRepr : Json → String
  | .null => "None"
  | .bool b => if b then "True" else "False"
  | .num n => toString n
  | .str s => pyStrRepr s
  | .arr xs => "[" ++ String.intercalate ", " (pyReprList xs) ++ "]"
  | .obj kvs => "\x7b" ++ String.intercalate ", " (pyReprPairs kvs) ++ "\x7d"

/-- Reprs of a list of values. -/
def pyReprList : List Json → List String
  | [] => []
  | x :: xs => pyRepr x :: pyReprList xs

/-- Reprs of the entries of a dict. -/
def pyReprPairs : List (String × Json) → List String
  | [] => []
  | (k, v) :: kvs => (pyStrRepr k ++ ": " ++ pyRepr v) :: pyReprPairs kvs

end

/-- CPython `str` of a decoded JSON value, as interpolated by an
f-string: a text string verbatim, `True` / `False` / `None` for booleans
and null, decimal for integers, `repr` for containers. -/
def pyStr : Json → String
  | .null => "None"
  | .bool b => if b then "True" else "False"
  | .num n => toString n
  | .str s => s
  | .arr xs => pyRepr (.arr xs)
  | .obj kvs => pyRepr (.obj kvs)

/-- Left-to-right evaluation of a Python list comprehension whose body
can fault: `none` as soon as one element faults. -/
def optMap (f : Json → Option String) : List Json → Option (List String)
  | [] => some []
  | x :: xs =>
    match f x with
    | none => none
    | some y =>
      match optMap f xs with
      | none => none
      | some ys => some (y :: ys)

/-- Constant `NWS_API_BASE` of `weather.py`. -/
def NWS_API_BASE : String := "https://api.weather.gov"

/-- Constant `USER_AGENT` of `weather.py`. -/
def USER_AGENT : String := "weather-app/1.0"

/-- Headers sent with every fetch (`get_weather_data`). -/
def requestHeaders : List (String × String) :=
  [("User-Agent", USER_AGENT), ("Accept", "application/geo+json")]

/-- Timeout, in seconds, passed to `client.get` in `get_weather_data`. -/
def REQUEST_TIMEOUT : Nat := 35

/-- Outcome of one HTTP round trip for a URL: the request timed out, a
transport-level error occurred, or a response arrived with a status code
and the JSON-decode result of its body (`none` = decode error). -/
inductive HttpResult where
  | timeout : HttpResult
  | transportError : HttpResult
  | response : Nat → Option Json → HttpResult

/-- Whether an outcome is a failure for `get_weather_data`: a timeout, a
transport error, a status outside 200–299 (`raise_for_status` raises), or
a body that fails to decode as JSON. -/
def HttpResult.isFault : HttpResult → Bool
  | .timeout => true
  | .transportError => true
  | .response status body => !(200 ≤ status && status < 300) || body.isNone

/-- Embedding of `get_weather_data` (`weather.py` lines 14–29): the
`try` block turns a timeout, a transport error, a non-2xx status
(`raise_for_status`) or a JSON-decode error into `None`; a decoded 2xx
body is returned.  Totality of this function is the "never raises"
contract: every outcome yields `none` or `some payload`. -/
def get_weather_data : HttpResult → Option Json
  | .timeout => none
  | .transportError => none
  | .response status body =>
    if 200 ≤ status && status < 300 then body else none

/-- Field text of one alert property: the value rendered by `str`, or the
fallback when the key is absent.  Total form used to STATE expected
blocks. -/
def alertFieldD (props : Json) (k fallbackText : String) : String :=
  match props.getKey k with
  | some v => pyStr v
  | none => fallbackText

/-- Expected text block for one alert feature, written from the template
of `format_alert`: the five labeled fields in order, each independently
falling back to its fixed text when absent from `properties`. -/
def alertBlockOf (feature : Json) : String :=
  "\nEvent: " ++ alertFieldD (getKeyD feature "properties") "event" "Unknown"
  ++ "\nArea: " ++ alertFieldD (getKeyD feature "properties") "areaDesc" "Unknown"
  ++ "\nSeverity: " ++ alertFieldD (getKeyD feature "properties") "severity" "Unknown"
  ++ "\nDescription: " ++ alertFieldD (getKeyD feature "properties") "description" "No Description"
  ++ "\nInstruction: " ++ alertFieldD (getKeyD feature "properties") "instruction" "No Specific Instruction"
  ++ "\n"

/-- Rendered optional field of `format_alert`: `properties.get(k)` value
through `str`, or the fallback text. -/
def strOrDefault (o : Option Json) (fallbackText : String) : String :=
  match o with
  | some v => pyStr v
  | none => fallbackText

/-- Embedding of `format_alert` (`weather.py` lines 32–41):
`feature["properties"]` faults when absent or when `feature` is not a
dict; each of the five `properties.get(...)` calls faults when
`properties` is not a dict, and otherwise falls back per field. -/
def format_alert (feature : Json) : Option String :=
  match feature.getKey "properties" with
  | none => none
  | some properties =>
    match pyDictGet properties "event" with
    | none => none
    | some ev =>
      match pyDictGet properties "areaDesc" with
      | none => none
      | some ar =>
        match pyDictGet properties "severity" with
        | none => none
        | some sev =>
          match pyDictGet properties "description" with
          | none => none
          | some desc =>
            match pyDictGet properties "instruction" with
            | none => none
            | some ins =>
              some ("\nEvent: " ++ strOrDefault ev "Unknown"
                ++ "\nArea: " ++ strOrDefault ar "Unknown"
                ++ "\nSeverity: " ++ strOrDefault sev "Unknown"
                ++ "\nDescription: " ++ strOrDefault desc "No Description"
                ++ "\nInstruction: " ++ strOrDefault ins "No Specific Instruction"
                ++ "\n")

/-- URL built by `get_alerts` for a state code. -/
def alertsUrl (state : String) : String :=
  NWS_API_BASE ++ "/alerts/active/area/" ++ state

/-- Logic of `get_alerts` after its fetch (`weather.py` lines 56–63),
as a function of the fetch result: the guard `not data or "features" not
in data`, the empty-`features` message, and the formatting loop.  `none`
is a fault escaping from `format_alert` or from the membership test. -/
def get_alerts_data : Option Json → Option String
  | none => some "Unable to fetch alerts!"
  | some data =>
    if data.isTruthy then
      match pyIn "features" data with
      | none => none
      | some false => some "Unable to fetch alerts!"
      | some true =>
        match data.getKey "features" with
        | none => none
        | some features =>
          if features.isTruthy then
            match features.pyIter with
            | none => none
            | some fs =>
              match optMap format_alert fs with
              | none => none
              | some alerts => some (String.intercalate "\n---\n" alerts)
          else some "No active alerts for this state"
    else some "Unable to fetch alerts!"

/-- Embedding of the tool `get_alerts` (`weather.py` lines 46–63): build
the alerts URL, fetch it once, and post-process.  The second component
lists the URLs handed to the fetcher, in order. -/
def get_alerts (env : String → HttpResult) (state : String) :
    Option String × List String :=
  (get_alerts_data (get_weather_data (env (alertsUrl state))), [alertsUrl state])

/-- URL built by `get_forecast` for rendered coordinates. -/
def pointsUrl (lat lon : String) : String :=
  NWS_API_BASE ++ "/points/" ++ lat ++ "," ++ lon

/-- Required forecast-period fields of `get_forecast`: the lookups its
f-string performs must all succeed, including the nested
`probabilityOfPrecipitation.value`. -/
def hasRequiredFields (p : Json) : Bool :=
  (p.getKey "name").isSome
  && (p.getKey "temperature").isSome
  && (p.getKey "temperatureUnit").isSome
  && (p.getKey "windSpeed").isSome
  && (p.getKey "windDirection").isSome
  && (p.getKey "probabilityOfPrecipitation").isSome
  && ((getKeyD p "probabilityOfPrecipitation").getKey "value").isSome
  && (p.getKey "detailedForecast").isSome

/-- Expected text block for one forecast period, written from the
f-string template of `get_forecast`. -/
def periodBlockOf (p : Json) : String :=
  "\n" ++ pyStr (getKeyD p "name")
  ++ ":\nTemperature: " ++ pyStr (getKeyD p "temperature")
  ++ " Degrees " ++ pyStr (getKeyD p "temperatureUnit")
  ++ "\nWind: " ++ pyStr (getKeyD p "windSpeed")
  ++ " " ++ pyStr (getKeyD p "windDirection")
  ++ "\nPrecipitation: " ++ pyStr (getKeyD (getKeyD p "probabilityOfPrecipitation") "value")
  ++ "%\nDetailed Forecast: " ++ pyStr (getKeyD p "detailedForecast")

/-- Embedding of the period f-string of `get_forecast` (`weather.py`
lines 98–103): the seven subscripts evaluate left to right and each
faults (`KeyError` / `TypeError`) when absent. -/
def format_period (period : Json) : Option String :=
  match period.getKey "name" with
  | none => none
  | some nm =>
    match period.getKey "temperature" with
    | none => none
    | some t =>
      match period.getKey "temperatureUnit" with
      | none => none
      | some tu =>
        match period.getKey "windSpeed" with
        | none => none
        | some ws =>
          match period.getKey "windDirection" with
          | none => none
          | some wd =>
            match period.getKey "probabilityOfPrecipitation" with
            | none => none
            | some pop =>
              match pop.getKey "value" with
              | none => none
              | some pv =>
                match period.getKey "detailedForecast" with
                | none => none
                | some df =>
                  some ("\n" ++ pyStr nm
                    ++ ":\nTemperature: " ++ pyStr t
                    ++ " Degrees " ++ pyStr tu
                    ++ "\nWind: " ++ pyStr ws
                    ++ " " ++ pyStr wd
                    ++ "\nPrecipitation: " ++ pyStr pv
                    ++ "%\nDetailed Forecast: " ++ pyStr df)

/-- Logic of `get_forecast` after the second fetch (`weather.py` lines
86–109), as a function of that fetch result: the falsiness guard, the
`properties.periods` lookups (faulting when absent), the slice to the
first seven periods, and the formatting loop. -/
def format_forecast_payload : Option Json → Option String
  | none => some "No Forecast Data Found"
  | some forecast_data =>
    if forecast_data.isTruthy then
      match forecast_data.getKey "properties" with
      | none => none
      | some props =>
        match props.getKey "periods" with
        | none => none
        | some periods =>
          match pySliceIter7 periods with
          | none => none
          | some ps =>
            match optMap format_period ps with
            | none => none
            | some forecasts => some (String.intercalate "\n---\n" forecasts)
    else some "No Forecast Data Found"

/-- Logic of `get_forecast` after the points fetch (`weather.py` lines
79–109), as a function of that fetch result: the falsiness guard, the
`properties.forecast` lookups (faulting when absent), then the second
fetch.  A non-string forecast URL makes `client.get` raise inside the
`try` of `get_weather_data`, which that function turns into `None`; no
URL reaches the network in that case.  The second component lists the
URLs handed to the fetcher by this part. -/
def get_forecast_after_points (env : String → HttpResult) :
    Option Json → Option String × List String
  | none => (some "No Data Found", [])
  | some points_data =>
    if points_data.isTruthy then
      match points_data.getKey "properties" with
      | none => (none, [])
      | some props =>
        match props.getKey "forecast" with
        | none => (none, [])
        | some forecast_url =>
          match forecast_url with
          | .str u => (format_forecast_payload (get_weather_data (env u)), [u])
          | _ => (format_forecast_payload none, [])
    else (some "No Data Found", [])

/-- Embedding of the tool `get_forecast` (`weather.py` lines 67–109):
build the points URL, fetch it, and continue with
`get_forecast_after_points`.  The second component lists the URLs handed
to the fetcher, in order. -/
def get_forecast (env : String → HttpResult) (lat lon : String) :
    Option String × List String :=
  let rest := get_forecast_after_points env (get_weather_data (env (pointsUrl lat lon)))
  (rest.1, pointsUrl lat lon :: rest.2)

/-! ## Helper lemmas -/

theorem Json.isTruthy_of_getKey {j v : Json} {k : String}
    (h : j.getKey k = some v) : j.isTruthy = true := by
  cases j <;> simp [Json.getKey] at h
  case obj kvs =>
    cases kvs with
    | nil => simp [List.lookup] at h
    | cons a l => simp [Json.isTruthy]

theorem optMap_eq_map {f : Json → Option String} {g : Json → String}
    {l : List Json} (h : ∀ x ∈ l, f x = some (g x)) :
    optMap f l = some (l.map g) := by
  induction l with
  | nil => rfl
  | cons a l ih =>
    have ha := h a (List.mem_cons_self a l)
    have hl := ih (fun x hx => h x (List.mem_cons_of_mem a hx))
    simp [optMap, ha, hl]

theorem optMap_eq_none {f : Json → Option String} {l : List Json} {x : Json}
    (hx : x ∈ l) (hf : f x = none) : optMap f l = none := by
  induction l with
  | nil => simp at hx
  | cons a l ih =>
    rcases List.mem_cons.mp hx with h | h
    · subst h; simp [optMap, hf]
    · cases ha : f a with
      | none => simp [optMap, ha]
      | some y => simp [optMap, ha, ih h]

theorem format_period_of_required {p : Json} (h : hasRequiredFields p = true) :
    format_period p = some (periodBlockOf p) := by
  unfold hasRequiredFields at h
  simp only [Bool.and_eq_true, Option.isSome_iff_exists] at h
  obtain ⟨⟨⟨⟨⟨⟨⟨⟨nm, hn⟩, t, ht⟩, tu, htu⟩, ws, hws⟩, wd, hwd⟩, pop, hpop⟩, pv, hpv⟩, df, hdf⟩ := h
  simp only [getKeyD, hpop, Option.getD_some] at hpv
  simp only [format_period, periodBlockOf, getKeyD, hn, ht, htu, hws, hwd, hpop, hpv, hdf,
    Option.getD_some]

theorem format_period_isSome (p : Json) :
    (format_period p).isSome = hasRequiredFields p := by
  unfold format_period hasRequiredFields getKeyD
  repeat' split
  all_goals simp_all

theorem format_period_eq_none {p : Json} (h : hasRequiredFields p = false) :
    format_period p = none := by
  have hs := format_period_isSome p
  rw [h] at hs
  cases hfp : format_period p with
  | none => rfl
  | some s => rw [hfp] at hs; simp at hs

theorem strOrDefault_eq_field (pkvs : List (String × Json)) (k fb : String) :
    strOrDefault (List.lookup k pkvs) fb = alertFieldD (.obj pkvs) k fb := by
  cases hl : List.lookup k pkvs <;> simp [strOrDefault, alertFieldD, Json.getKey, hl]

theorem format_alert_of_props {f : Json} {pkvs : List (String × Json)}
    (h : f.getKey "properties" = some (.obj pkvs)) :
    format_alert f = some (alertBlockOf f) := by
  unfold format_alert alertBlockOf getKeyD
  rw [h]
  simp only [Option.getD_some, pyDictGet, strOrDefault_eq_field]

theorem format_alert_eq_none {f : Json}
    (h : f.getKey "properties" = none) : format_alert f = none := by
  simp [format_alert, h]

theorem Json.getKey_obj {j v : Json} {k : String} (h : j.getKey k = some v) :
    ∃ kvs, j = Json.obj kvs ∧ List.lookup k kvs = some v := by
  cases j <;> simp [Json.getKey] at h
  case obj kvs => exact ⟨kvs, rfl, h⟩

/-! ## Claim theorems -/

/-- C3: for every URL outcome, the fetcher never propagates a fault to
its caller (its embedding is a total function into `Option Json`), and
every failure cause — timeout, transport error, non-2xx status,
JSON-decode error — yields the Absent result `none`, so that any two
failure causes are indistinguishable to the caller. -/
theorem fetch_failure_collapses_to_absent (r r' : HttpResult)
    (h : r.isFault = true) (h' : r'.isFault = true) :
    get_weather_data r = none ∧ get_weather_data r = get_weather_data r' := by
  have key : ∀ s : HttpResult, s.isFault = true → get_weather_data s = none := by
    intro s hs
    cases s with
    | timeout => rfl
    | transportError => rfl
    | response status body =>
      simp only [HttpResult.isFault] at hs
      simp only [get_weather_data]
      cases hcond : (decide (200 ≤ status) && decide (status < 300)) with
      | false => simp [hcond]
      | true =>
        rw [hcond] at hs
        simp at hs
        simp [hcond, hs]
  exact ⟨key r h, by rw [key r h, key r' h']⟩

theorem fetch_failure_collapses_to_absent_witness :
    HttpResult.isFault .timeout = true ∧
    HttpResult.isFault (.response 500 (some (Json.obj []))) = true ∧
    get_weather_data .timeout = none ∧
    get_weather_data .timeout = get_weather_data (.response 500 (some (Json.obj []))) := by
  refine ⟨rfl, rfl, ?_⟩
  exact fetch_failure_collapses_to_absent .timeout (.response 500 (some (Json.obj []))) rfl rfl

/-- C4: when the alerts fetch is Absent, or yields a mapping without a
`features` key, `get_alerts` returns exactly "Unable to fetch alerts!". -/
theorem alerts_absent_or_no_features (env : String → HttpResult) (state : String)
    (h : get_weather_data (env (alertsUrl state)) = none ∨
         ∃ kvs, get_weather_data (env (alertsUrl state)) = some (Json.obj kvs) ∧
                List.lookup "features" kvs = none) :
    (get_alerts env state).1 = some "Unable to fetch alerts!" := by
  rcases h with h | ⟨kvs, h, hl⟩
  · simp [get_alerts, h, get_alerts_data]
  · have : get_alerts_data (some (Json.obj kvs)) = some "Unable to fetch alerts!" := by
      unfold get_alerts_data
      cases htr : (Json.obj kvs).isTruthy with
      | false => simp [htr]
      | true => simp [htr, pyIn, hl]
    simp [get_alerts, h, this]

theorem alerts_absent_or_no_features_witness :
    (get_alerts (fun _ => HttpResult.timeout) "WA").1 = some "Unable to fetch alerts!" :=
  alerts_absent_or_no_features (fun _ => HttpResult.timeout) "WA" (Or.inl rfl)

/-- C6: when the alerts fetch yields a mapping whose `features` key holds
an empty sequence, `get_alerts` returns exactly "No active alerts for
this state". -/
theorem alerts_empty_features (env : String → HttpResult) (state : String) (data : Json)
    (hd : get_weather_data (env (alertsUrl state)) = some data)
    (hf : data.getKey "features" = some (Json.arr [])) :
    (get_alerts env state).1 = some "No active alerts for this state" := by
  obtain ⟨kvs, rfl, hl⟩ := Json.getKey_obj hf
  have htr := Json.isTruthy_of_getKey hf
  have hfe : (Json.arr ([] : List Json)).isTruthy = false := rfl
  have : get_alerts_data (some (Json.obj kvs)) = some "No active alerts for this state" := by
    unfold get_alerts_data
    simp [htr, pyIn, hl, Json.getKey, hfe]
  simp [get_alerts, hd, this]

theorem alerts_empty_features_witness :
    (get_alerts
      (fun _ => HttpResult.response 200 (some (Json.obj [("features", Json.arr [])])))
      "WA").1 = some "No active alerts for this state" :=
  alerts_empty_features
    (fun _ => HttpResult.response 200 (some (Json.obj [("features", Json.arr [])])))
    "WA" (Json.obj [("features", Json.arr [])]) rfl rfl

/-- C5: a fetch failure on the points URL makes `get_forecast` return
exactly "No Data Found" with the points URL as the only fetched URL (the
second fetch is never issued); when the points payload supplies
`properties.forecast` but the fetch of that derived URL is Absent, the
result is exactly "No Forecast Data Found". -/
theorem forecast_failure_messages :
    (∀ (env : String → HttpResult) (lat lon : String),
      get_weather_data (env (pointsUrl lat lon)) = none →
      get_forecast env lat lon = (some "No Data Found", [pointsUrl lat lon])) ∧
    (∀ (env : String → HttpResult) (lat lon : String) (pd props : Json) (furl : String),
      get_weather_data (env (pointsUrl lat lon)) = some pd →
      pd.getKey "properties" = some props →
      props.getKey "forecast" = some (Json.str furl) →
      get_weather_data (env furl) = none →
      (get_forecast env lat lon).1 = some "No Forecast Data Found") := by
  constructor
  · intro env lat lon h
    simp [get_forecast, get_forecast_after_points, h]
  · intro env lat lon pd props furl h1 h2 h3 h4
    have htr := Json.isTruthy_of_getKey h2
    simp [get_forecast, get_forecast_after_points, h1, htr, h2, h3, h4,
      format_forecast_payload]

theorem forecast_failure_messages_witness :
    get_forecast (fun _ => HttpResult.timeout) "1.0" "2.0"
      = (some "No Data Found", [pointsUrl "1.0" "2.0"]) ∧
    (get_forecast
      (fun u => if u = pointsUrl "1.0" "2.0" then
          HttpResult.response 200 (some (Json.obj
            [("properties", Json.obj [("forecast", Json.str "https://example.org/f")])]))
        else HttpResult.timeout)
      "1.0" "2.0").1 = some "No Forecast Data Found" := by
  constructor
  · exact forecast_failure_messages.1 (fun _ => HttpResult.timeout) "1.0" "2.0" rfl
  · exact forecast_failure_messages.2
      (fun u => if u = pointsUrl "1.0" "2.0" then
          HttpResult.response 200 (some (Json.obj
            [("properties", Json.obj [("forecast", Json.str "https://example.org/f")])]))
        else HttpResult.timeout)
      "1.0" "2.0"
      (Json.obj [("properties", Json.obj [("forecast", Json.str "https://example.org/f")])])
      (Json.obj [("forecast", Json.str "https://example.org/f")])
      "https://example.org/f" rfl rfl rfl rfl

/-- C10: the orchestrators test the fetch result for Python falsiness
rather than for Absent, so a successful fetch whose decoded payload is
falsy (such as the empty object) is treated exactly like a fetch
failure: "Unable to fetch alerts!" for the alerts URL, "No Data Found"
for the points URL, "No Forecast Data Found" for the derived forecast
URL. -/
theorem falsy_payload_treated_as_failure :
    (∀ (env : String → HttpResult) (state : String) (data : Json),
      get_weather_data (env (alertsUrl state)) = some data →
      data.isTruthy = false →
      (get_alerts env state).1 = some "Unable to fetch alerts!") ∧
    (∀ (env : String → HttpResult) (lat lon : String) (data : Json),
      get_weather_data (env (pointsUrl lat lon)) = some data →
      data.isTruthy = false →
      (get_forecast env lat lon).1 = some "No Data Found") ∧
    (∀ (env : String → HttpResult) (lat lon : String) (pd props fd : Json) (furl : String),
      get_weather_data (env (pointsUrl lat lon)) = some pd →
      pd.getKey "properties" = some props →
      props.getKey "forecast" = some (Json.str furl) →
      get_weather_data (env furl) = some fd →
      fd.isTruthy = false →
      (get_forecast env lat lon).1 = some "No Forecast Data Found") := by
  refine ⟨?_, ?_, ?_⟩
  · intro env state data hd hfalsy
    simp [get_alerts, hd, get_alerts_data, hfalsy]
  · intro env lat lon data hd hfalsy
    simp [get_forecast, get_forecast_after_points, hd, hfalsy]
  · intro env lat lon pd props fd furl h1 h2 h3 h4 h5
    have htr := Json.isTruthy_of_getKey h2
    simp [get_forecast, get_forecast_after_points, h1, htr, h2, h3, h4,
      format_forecast_payload, h5]

theorem falsy_payload_treated_as_failure_witness :
    (get_alerts (fun _ => HttpResult.response 200 (some (Json.obj []))) "WA").1
      = some "Unable to fetch alerts!" ∧
    (get_forecast (fun _ => HttpResult.response 200 (some (Json.obj []))) "1.0" "2.0").1
      = some "No Data Found" ∧
    (get_forecast
      (fun u => if u = pointsUrl "1.0" "2.0" then
          HttpResult.response 200 (some (Json.obj
            [("properties", Json.obj [("forecast", Json.str "https://example.org/f")])]))
        else HttpResult.response 200 (some (Json.obj [])))
      "1.0" "2.0").1 = some "No Forecast Data Found" := by
  refine ⟨?_, ?_, ?_⟩
  · exact falsy_payload_treated_as_failure.1
      (fun _ => HttpResult.response 200 (some (Json.obj []))) "WA" (Json.obj []) rfl rfl
  · exact falsy_payload_treated_as_failure.2.1
      (fun _ => HttpResult.response 200 (some (Json.obj []))) "1.0" "2.0" (Json.obj []) rfl rfl
  · exact falsy_payload_treated_as_failure.2.2
      (fun u => if u = pointsUrl "1.0" "2.0" then
          HttpResult.response 200 (some (Json.obj
            [("properties", Json.obj [("forecast", Json.str "https://example.org/f")])]))
        else HttpResult.response 200 (some (Json.obj [])))
      "1.0" "2.0"
      (Json.obj [("properties", Json.obj [("forecast", Json.str "https://example.org/f")])])
      (Json.obj [("forecast", Json.str "https://example.org/f")])
      (Json.obj []) "https://example.org/f" rfl rfl rfl rfl rfl

/-- C2: when the alerts fetch yields a mapping whose `features` key holds
a non-empty sequence of features, each carrying a `properties` mapping,
`get_alerts` returns one block per feature joined by a separator line;
`alertBlockOf` shows each block carries the five labeled fields, each
independently falling back to its fixed text when absent. -/
theorem alerts_formats_each_feature (env : String → HttpResult) (state : String)
    (data : Json) (fs : List Json)
    (hd : get_weather_data (env (alertsUrl state)) = some data)
    (hf : data.getKey "features" = some (Json.arr fs))
    (hne : fs ≠ [])
    (hp : ∀ f ∈ fs, ∃ pkvs, f.getKey "properties" = some (Json.obj pkvs)) :
    (get_alerts env state).1 =
      some (String.intercalate "\n---\n" (fs.map alertBlockOf)) := by
  obtain ⟨kvs, rfl, hl⟩ := Json.getKey_obj hf
  have htr := Json.isTruthy_of_getKey hf
  have hmap : optMap format_alert fs = some (fs.map alertBlockOf) := by
    apply optMap_eq_map
    intro f hfm
    obtain ⟨pkvs, hpk⟩ := hp f hfm
    exact format_alert_of_props hpk
  have hfe : (Json.arr fs).isTruthy = true := by
    cases fs with
    | nil => exact absurd rfl hne
    | cons a l => rfl
  have : get_alerts_data (some (Json.obj kvs)) =
      some (String.intercalate "\n---\n" (fs.map alertBlockOf)) := by
    unfold get_alerts_data
    simp [htr, pyIn, hl, Json.getKey, hfe, Json.pyIter, hmap]
  simp [get_alerts, hd, this]

theorem alerts_formats_each_feature_witness :
    (get_alerts
      (fun _ => HttpResult.response 200 (some (Json.obj [("features", Json.arr
        [Json.obj [("properties", Json.obj [("event", Json.str "Flood Warning"),
                   ("severity", Json.str "Severe")])]]
      )])))
      "WA").1 =
      some (String.intercalate "\n---\n"
        ([Json.obj [("properties", Json.obj [("event", Json.str "Flood Warning"),
                    ("severity", Json.str "Severe")])]].map alertBlockOf)) :=
  alerts_formats_each_feature
    (fun _ => HttpResult.response 200 (some (Json.obj [("features", Json.arr
      [Json.obj [("properties", Json.obj [("event", Json.str "Flood Warning"),
                 ("severity", Json.str "Severe")])]]
    )])))
    "WA"
    (Json.obj [("features", Json.arr
      [Json.obj [("properties", Json.obj [("event", Json.str "Flood Warning"),
                 ("severity", Json.str "Severe")])]])])
    [Json.obj [("properties", Json.obj [("event", Json.str "Flood Warning"),
               ("severity", Json.str "Severe")])]]
    rfl rfl (by simp)
    (by intro f hfm
        simp only [List.mem_singleton] at hfm
        subst hfm
        exact ⟨_, rfl⟩)

/-- C1: with both fetches non-Absent and a forecast payload whose
`properties.periods` is a sequence of at most 20 periods, each carrying
all required fields, `get_forecast` returns exactly the first
`min(N,7)` periods formatted by `periodBlockOf` — name, temperature and
unit, wind speed and direction, precipitation percentage, detailed
forecast verbatim — in original order, joined by the separator line. -/
theorem forecast_formats_min_periods (env : String → HttpResult) (lat lon : String)
    (pd props fd fprops : Json) (furl : String) (ps : List Json)
    (h1 : get_weather_data (env (pointsUrl lat lon)) = some pd)
    (h2 : pd.getKey "properties" = some props)
    (h3 : props.getKey "forecast" = some (Json.str furl))
    (h4 : get_weather_data (env furl) = some fd)
    (h5 : fd.getKey "properties" = some fprops)
    (h6 : fprops.getKey "periods" = some (Json.arr ps))
    (h7 : ps.length ≤ 20)
    (h8 : ∀ p ∈ ps, hasRequiredFields p = true) :
    (get_forecast env lat lon).1 =
      some (String.intercalate "\n---\n" ((ps.take 7).map periodBlockOf)) ∧
    ((ps.take 7).map periodBlockOf).length = min ps.length 7 := by
  have htr1 := Json.isTruthy_of_getKey h2
  have htr2 := Json.isTruthy_of_getKey h5
  have hmap : optMap format_period (ps.take 7) = some ((ps.take 7).map periodBlockOf) := by
    apply optMap_eq_map
    intro p hpm
    exact format_period_of_required (h8 p (List.take_subset 7 ps hpm))
  constructor
  · simp [get_forecast, get_forecast_after_points, h1, htr1, h2, h3, h4,
      format_forecast_payload, htr2, h5, h6, pySliceIter7, hmap]
  · rw [List.length_map, List.length_take, Nat.min_comm]

/-- Concrete forecast period used by witnesses. -/
def wPeriod : Json := Json.obj [("name", Json.str "Tonight"), ("temperature", Json.num 61),
  ("temperatureUnit", Json.str "F"), ("windSpeed", Json.str "5 mph"),
  ("windDirection", Json.str "SW"),
  ("probabilityOfPrecipitation", Json.obj [("value", Json.num 30)]),
  ("detailedForecast", Json.str "Clear skies.")]

/-- Concrete fetch environment used by witnesses: a points payload at the
points URL and a one-period forecast payload at the derived URL. -/
def wForecastEnv : String → HttpResult := fun u =>
  if u = pointsUrl "10.0" "20.0" then
    HttpResult.response 200 (some (Json.obj
      [("properties", Json.obj [("forecast", Json.str "https://example.org/f")])]))
  else if u = "https://example.org/f" then
    HttpResult.response 200 (some (Json.obj
      [("properties", Json.obj [("periods", Json.arr [wPeriod])])]))
  else HttpResult.timeout

theorem forecast_formats_min_periods_witness :
    (get_forecast wForecastEnv "10.0" "20.0").1 =
      some (String.intercalate "\n---\n" (([wPeriod].take 7).map periodBlockOf)) ∧
    (([wPeriod].take 7).map periodBlockOf).length = min (List.length [wPeriod]) 7 :=
  forecast_formats_min_periods wForecastEnv "10.0" "20.0"
    (Json.obj [("properties", Json.obj [("forecast", Json.str "https://example.org/f")])])
    (Json.obj [("forecast", Json.str "https://example.org/f")])
    (Json.obj [("properties", Json.obj [("periods", Json.arr [wPeriod])])])
    (Json.obj [("periods", Json.arr [wPeriod])])
    "https://example.org/f" [wPeriod]
    rfl rfl rfl rfl rfl rfl
    (by simp)
    (by intro p hpm
        simp only [List.mem_singleton] at hpm
        subst hpm
        rfl)

/-- C9: the per-field fallback tolerance of `format_alert` does not
extend to the `properties` key itself: a feature mapping without it makes
`format_alert` fault (`none`), and `get_alerts` on a features sequence
containing such a feature faults too, instead of producing fallback
text. -/
theorem missing_properties_faults (env : String → HttpResult) (state : String)
    (data f : Json) (fs : List Json) (fkvs : List (String × Json))
    (hd : get_weather_data (env (alertsUrl state)) = some data)
    (hf : data.getKey "features" = some (Json.arr fs))
    (hm : f ∈ fs)
    (hobj : f = Json.obj fkvs)
    (hnp : List.lookup "properties" fkvs = none) :
    format_alert f = none ∧ (get_alerts env state).1 = none := by
  have hfa : format_alert f = none := by
    apply format_alert_eq_none
    rw [hobj]
    simp [Json.getKey, hnp]
  refine ⟨hfa, ?_⟩
  obtain ⟨kvs, rfl, hl⟩ := Json.getKey_obj hf
  have htr := Json.isTruthy_of_getKey hf
  have hfe : (Json.arr fs).isTruthy = true := by
    cases fs with
    | nil => simp at hm
    | cons a l => rfl
  have hmap := optMap_eq_none hm hfa
  have : get_alerts_data (some (Json.obj kvs)) = none := by
    unfold get_alerts_data
    simp [htr, pyIn, hl, Json.getKey, hfe, Json.pyIter, hmap]
  simp [get_alerts, hd, this]

theorem missing_properties_faults_witness :
    format_alert (Json.obj [("id", Json.str "urn:a")]) = none ∧
    (get_alerts
      (fun _ => HttpResult.response 200 (some (Json.obj
        [("features", Json.arr [Json.obj [("id", Json.str "urn:a")]])])))
      "WA").1 = none :=
  missing_properties_faults
    (fun _ => HttpResult.response 200 (some (Json.obj
      [("features", Json.arr [Json.obj [("id", Json.str "urn:a")]])])))
    "WA"
    (Json.obj [("features", Json.arr [Json.obj [("id", Json.str "urn:a")]])])
    (Json.obj [("id", Json.str "urn:a")])
    [Json.obj [("id", Json.str "urn:a")]]
    [("id", Json.str "urn:a")]
    rfl rfl (by simp) rfl rfl

/-- C7 counterexample: the empty object is a non-Absent points payload
lacking `properties.forecast`, yet `get_forecast` returns the fixed
user-facing string "No Data Found" instead of faulting, because the
falsiness guard intercepts the empty payload before the key lookup. -/
theorem forecast_fault_counterexample :
    get_weather_data (HttpResult.response 200 (some (Json.obj []))) = some (Json.obj []) ∧
    (Json.obj []).getKey "properties" = none ∧
    (get_forecast (fun _ => HttpResult.response 200 (some (Json.obj []))) "1.0" "2.0").1
      = some "No Data Found" :=
  ⟨rfl, rfl, rfl⟩

/-- C7 amended: for every non-Absent TRUTHY points payload lacking
`properties.forecast`, `get_forecast` terminates with an uncaught
key-lookup fault (`none`), not a fixed user-facing string; and whenever
the chain reaches a forecast payload whose `properties.periods` sequence
has, among its first seven periods, one lacking a required field,
`get_forecast` faults as well. -/
theorem forecast_missing_required_faults :
    (∀ (env : String → HttpResult) (lat lon : String) (pd : Json),
      get_weather_data (env (pointsUrl lat lon)) = some pd →
      pd.isTruthy = true →
      (pd.getKey "properties").bind (fun props => props.getKey "forecast") = none →
      (get_forecast env lat lon).1 = none) ∧
    (∀ (env : String → HttpResult) (lat lon : String) (pd props fd fprops : Json)
       (furl : String) (ps : List Json) (p : Json),
      get_weather_data (env (pointsUrl lat lon)) = some pd →
      pd.getKey "properties" = some props →
      props.getKey "forecast" = some (Json.str furl) →
      get_weather_data (env furl) = some fd →
      fd.getKey "properties" = some fprops →
      fprops.getKey "periods" = some (Json.arr ps) →
      p ∈ ps.take 7 →
      hasRequiredFields p = false →
      (get_forecast env lat lon).1 = none) := by
  constructor
  · intro env lat lon pd h1 htr hlack
    cases hp : pd.getKey "properties" with
    | none => simp [get_forecast, get_forecast_after_points, h1, htr, hp]
    | some props =>
      rw [hp] at hlack
      simp only [Option.some_bind] at hlack
      simp [get_forecast, get_forecast_after_points, h1, htr, hp, hlack]
  · intro env lat lon pd props fd fprops furl ps p h1 h2 h3 h4 h5 h6 hpmem hbad
    have htr1 := Json.isTruthy_of_getKey h2
    have htr2 := Json.isTruthy_of_getKey h5
    have hmap := optMap_eq_none hpmem (format_period_eq_none hbad)
    simp [get_forecast, get_forecast_after_points, h1, htr1, h2, h3, h4,
      format_forecast_payload, htr2, h5, h6, pySliceIter7, hmap]

/-- Forecast period lacking required fields, used by the C7 witness. -/
def wBadPeriod : Json := Json.obj [("name", Json.str "Tonight")]

/-- Fetch environment whose forecast payload holds one period lacking
required fields, used by the C7 witness. -/
def wBadForecastEnv : String → HttpResult := fun u =>
  if u = pointsUrl "10.0" "20.0" then
    HttpResult.response 200 (some (Json.obj
      [("properties", Json.obj [("forecast", Json.str "https://example.org/f")])]))
  else if u = "https://example.org/f" then
    HttpResult.response 200 (some (Json.obj
      [("properties", Json.obj [("periods", Json.arr [wBadPeriod])])]))
  else HttpResult.timeout

theorem forecast_missing_required_faults_witness :
    (get_forecast (fun _ => HttpResult.response 200 (some (Json.obj [("id", Json.num 1)])))
      "1.0" "2.0").1 = none ∧
    (get_forecast wBadForecastEnv "10.0" "20.0").1 = none := by
  constructor
  · exact forecast_missing_required_faults.1
      (fun _ => HttpResult.response 200 (some (Json.obj [("id", Json.num 1)])))
      "1.0" "2.0" (Json.obj [("id", Json.num 1)]) rfl rfl rfl
  · exact forecast_missing_required_faults.2 wBadForecastEnv "10.0" "20.0"
      (Json.obj [("properties", Json.obj [("forecast", Json.str "https://example.org/f")])])
      (Json.obj [("forecast", Json.str "https://example.org/f")])
      (Json.obj [("properties", Json.obj [("periods", Json.arr [wBadPeriod])])])
      (Json.obj [("periods", Json.arr [wBadPeriod])])
      "https://example.org/f" [wBadPeriod] wBadPeriod
      rfl rfl rfl rfl rfl rfl (by simp) rfl

theorem after_points_agree (env1 env2 : String → HttpResult) (d : Option Json)
    (h : ∀ u ∈ (get_forecast_after_points env1 d).2, env1 u = env2 u) :
    get_forecast_after_points env1 d = get_forecast_after_points env2 d := by
  cases d with
  | none => rfl
  | some pd =>
    unfold get_forecast_after_points at h ⊢
    cases htr : pd.isTruthy with
    | false => simp [htr]
    | true =>
      simp only [htr, if_true] at h ⊢
      cases hp : pd.getKey "properties" with
      | none => simp [hp]
      | some props =>
        simp only [hp] at h ⊢
        cases hfo : props.getKey "forecast" with
        | none => simp [hfo]
        | some furl =>
          simp only [hfo] at h ⊢
          cases furl with
          | str u =>
            have hu : env1 u = env2 u := by
              apply h
              simp
            simp [hu]
          | null => rfl
          | bool b => rfl
          | num n => rfl
          | arr xs => rfl
          | obj kvs => rfl

/-- C8: the tools are deterministic and stateless: two runs with the same
inputs whose fetch environments agree on every URL the run fetches
return byte-identical results (the whole result of each embedded
function is determined by its arguments and those fetch results alone;
no other state exists to influence it). -/
theorem tools_deterministic (env1 env2 : String → HttpResult)
    (state lat lon : String) (f : Json)
    (ha : ∀ u ∈ (get_alerts env1 state).2, env1 u = env2 u)
    (hf : ∀ u ∈ (get_forecast env1 lat lon).2, env1 u = env2 u) :
    get_alerts env1 state = get_alerts env2 state ∧
    get_forecast env1 lat lon = get_forecast env2 lat lon ∧
    format_alert f = format_alert f := by
  refine ⟨?_, ?_, rfl⟩
  · have h1 : env1 (alertsUrl state) = env2 (alertsUrl state) := by
      apply ha
      simp [get_alerts]
    simp [get_alerts, h1]
  · have h1 : env1 (pointsUrl lat lon) = env2 (pointsUrl lat lon) := by
      apply hf
      simp [get_forecast]
    have h2 : ∀ u ∈ (get_forecast_after_points env1
        (get_weather_data (env1 (pointsUrl lat lon)))).2, env1 u = env2 u := by
      intro u hu
      apply hf
      simp only [get_forecast, List.mem_cons]
      exact Or.inr hu
    have hagree := after_points_agree env1 env2
      (get_weather_data (env1 (pointsUrl lat lon))) h2
    simp only [get_forecast]
    rw [← h1, ← hagree]

/-- Fetch environment that always times out, used by the C8 witness. -/
def wEnvTimeout : String → HttpResult := fun _ => HttpResult.timeout

/-- Fetch environment differing from `wEnvTimeout` only at a URL neither
tool run fetches, used by the C8 witness. -/
def wEnvTimeout2 : String → HttpResult := fun u =>
  if u = "https://example.org/never" then HttpResult.transportError else HttpResult.timeout

theorem tools_deterministic_witness :
    get_alerts wEnvTimeout "WA" = get_alerts wEnvTimeout2 "WA" ∧
    get_forecast wEnvTimeout "1.0" "2.0" = get_forecast wEnvTimeout2 "1.0" "2.0" ∧
    format_alert (Json.obj []) = format_alert (Json.obj []) :=
  tools_deterministic wEnvTimeout wEnvTimeout2 "WA" "1.0" "2.0" (Json.obj [])
    (by intro u hu
        simp only [get_alerts, List.mem_singleton] at hu
        subst hu
        rfl)
    (by intro u hu
        simp only [get_forecast, wEnvTimeout, get_weather_data,
          get_forecast_after_points, List.mem_singleton] at hu
        subst hu
        rfl)
